import Mathlib

/-!
Shallow embedding of the session-bootstrap layer of the impact-client-js
repository (file src/api.ts).  JavaScript strings become Lean `String`;
JavaScript `undefined`-able strings become `Option String`, with JS
truthiness modelled by `truthy` (both `undefined` and the empty string are
falsy).  Promise-based control flow becomes explicit: every stateful
operation returns the updated client state, an optional thrown value, and
the list of network calls it issued, so that temporal claims about which
HTTP requests are ever sent can be stated as properties of the call trace.
-/

namespace ImpactClient

/-- JS truthiness for an optional string: `undefined` and `""` are falsy. -/
def truthy : Option String → Bool
  | none => false
  | some s => !(s == "")

/-- JS template-literal interpolation of a possibly-undefined string:
`undefined` prints as the literal text "undefined". -/
def jsStr : Option String → String
  | some s => s
  | none => "undefined"

/-- Error codes of the closed error taxonomy.  Modelled from the spec:
the module src/api-error (the ApiError class and the named error-code
constants MissingJupyterHubToken, ServerNotStarted, JhTokenError,
MissingAccessTokenCookie, UnknownApiError) is imported by src/api.ts but
its source is not in the repository snapshot; the spec (section 7)
describes each kind as carrying a stable code and optionally a transport
status code.  `serverCode` is a structured error code taken verbatim from
an error-response body by the classifier. -/
inductive ErrorCode where
  | MissingJupyterHubToken
  | ServerNotStarted
  | JhTokenError
  | MissingAccessTokenCookie
  | UnknownApiError
  | serverCode (code : String)
deriving DecidableEq, Repr

/-- Modelled from the spec: the ApiError value constructed throughout
src/api.ts as new ApiError with an errorCode, an optional httpCode and a
message. -/
structure ApiError where
  errorCode : ErrorCode
  httpCode : Option Nat
  message : String
deriving DecidableEq, Repr

/-- The data reachable from an AxiosError inside src/api.ts:
e.response?.status, e.response?.data?.error?.code and
e.response?.data?.error?.message. -/
structure AxiosErrorData where
  status : Option Nat
  bodyErrorCode : Option String
  bodyErrorMessage : Option String
deriving DecidableEq, Repr

/-- A value thrown or used to reject a promise: an AxiosError (transport
failure), an ApiError, or some other JS error. -/
inductive Thrown where
  | axios (e : AxiosErrorData)
  | api (e : ApiError)
  | other (msg : String)
deriving DecidableEq, Repr

/-- src/api.ts lines 56-65, toApiError: an AxiosError is classified into
an ApiError whose code comes from the structured error body when truthy
(the JS expression uses the logical-or default), falling back to
UnknownApiError, carrying the transport status; any other value is
returned unchanged. -/
def toApiError : Thrown → Thrown
  | .axios e =>
      .api
        { errorCode :=
            match e.bodyErrorCode with
            | some c => if c == "" then .UnknownApiError else .serverCode c
            | none => .UnknownApiError
          httpCode := e.status
          message :=
            match e.bodyErrorMessage with
            | some m => if m == "" then "Api Error" else m
            | none => "Api Error" }
  | t => t

/-- The two transport headers built by src/api.ts: `Authorization`
(gateway auth, always present) and `Impact-Authorization` (service auth,
present only when an impact token is known). -/
structure Headers where
  authorization : String
  impactAuthorization : Option String
deriving DecidableEq, Repr

/-- src/api.ts AxiosConfig: headers plus an optional cookie jar.  The jar
is identified by a number so that distinct jar objects created by
successive rebuilds are distinguishable. -/
structure AxiosConfig where
  headers : Headers
  jar : Option Nat
deriving DecidableEq, Repr

/-- The header record built at src/api.ts lines 76-83 and 185-192: always
the gateway Authorization header, plus the Impact-Authorization header
when the impact token is truthy. -/
def mkHeaders (jhToken : String) (impactToken : Option String) : Headers :=
  { authorization := "token " ++ jhToken
    impactAuthorization :=
      if truthy impactToken then some ("Bearer " ++ jsStr impactToken) else none }

/-- The mutable fields of the Api class (src/api.ts lines 67-74), with a
counter supplying fresh cookie-jar identities. -/
structure ClientState where
  baseUrl : String
  impactApiKey : Option String
  impactToken : Option String
  jhToken : String
  jhUserPath : Option String
  axiosConfig : AxiosConfig
  nextJar : Nat
deriving DecidableEq, Repr

/-- A cookie as used by src/api.ts (tough-cookie Cookie): a key and a
value. -/
structure Cookie where
  key : String
  value : String
deriving DecidableEq, Repr

/-- Runtime environment detected by isNode (src/api.ts line 36): node
(explicit cookie jar) or browser (ambient document cookies). -/
inductive RuntimeMode where
  | node
  | browser
deriving DecidableEq, Repr

/-- One network call issued by the client, recorded with enough of the
request to state the temporal claims: the gateway lookup GET, the login
exchange POST (with the secretKey request-body field), or a domain
request (with the headers of the transport configuration it was issued
from). -/
inductive NetCall where
  | lookup (url : String)
  | login (url : String) (secretKey : Option String)
  | domain (url : String) (headers : Headers)
deriving DecidableEq, Repr

def NetCall.isLookup : NetCall → Bool
  | .lookup _ => true
  | _ => false

def NetCall.isLogin : NetCall → Bool
  | .login _ _ => true
  | _ => false

def NetCall.isDomain : NetCall → Bool
  | .domain _ _ => true
  | _ => false

/-- The outside world a client run interacts with: the runtime mode and
the outcomes the transport would deliver for each kind of request, plus
the contents of the two cookie storages.  `lookupResult` is the outcome
of the gateway authorization GET (on success, the optional `server`
field of the JSON body); `loginResult` the outcome of the login POST;
`jarCookies` the cookies the explicit jar returns for the routing-path
URL; `documentCookie` the ambient document.cookie string;
`domainResult` the outcome of a domain request, with the resolved
payload abstracted as a string. -/
structure Env where
  mode : RuntimeMode
  lookupResult : Except Thrown (Option String)
  loginResult : Except Thrown Unit
  jarCookies : List Cookie
  documentCookie : String
  domainResult : Except Thrown String

/-- src/api.ts lines 76-85, configureAxios: rebuild the axios config from
the current tokens.  The new config object has only a headers field, so
any previously bound cookie jar is absent from it. -/
def configureAxios (s : ClientState) : ClientState :=
  { s with axiosConfig := { headers := mkHeaders s.jhToken s.impactToken, jar := none } }

/-- JS String.endsWith as a suffix check over the character list (kept
list-based so that it evaluates by kernel reduction). -/
def strEndsWith (s suffix : String) : Bool :=
  suffix.toList.isSuffixOf s.toList

/-- The ApiError raised at src/api.ts lines 104-110 when the gateway
credential is absent at construction. -/
def missingJupyterHubTokenError : ApiError :=
  { errorCode := .MissingJupyterHubToken
    httpCode := none
    message := "Impact client instantiation failed: The jupyterHubToken parameter is mandatory" }

/-- src/api.ts lines 87-120, the private constructor: records the
construction arguments, fails synchronously with MissingJupyterHubToken
when the jupyterHubToken argument is falsy (absent or empty), normalises
a truthy jupyterHubUserPath to end in a slash, and builds the initial
axios config.  No network call is issued (the result type has no call
trace). -/
def Api.construct (impactApiKey impactToken jupyterHubToken : Option String)
    (serverAddress : String) (jupyterHubUserPath : Option String) :
    Except ApiError ClientState :=
  if !truthy jupyterHubToken then
    .error missingJupyterHubTokenError
  else
    let jhUserPath : Option String :=
      match jupyterHubUserPath with
      | some p =>
          if p == "" then none
          else some (p ++ (if strEndsWith p "/" then "" else "/"))
      | none => none
    .ok (configureAxios
      { baseUrl := serverAddress
        impactApiKey := impactApiKey
        impactToken := impactToken
        jhToken := jsStr jupyterHubToken
        jhUserPath := jhUserPath
        axiosConfig := { headers := { authorization := "", impactAuthorization := none }, jar := none }
        nextJar := 0 })

/-- src/api.ts lines 122-139, the fromImpactApiKey factory. -/
def Api.fromImpactApiKey (impactApiKey : String) (jupyterHubToken : Option String)
    (jupyterHubUserPath : Option String) (serverAddress : String) :
    Except ApiError ClientState :=
  Api.construct (some impactApiKey) none jupyterHubToken serverAddress jupyterHubUserPath

/-- src/api.ts lines 141-158, the fromImpactToken factory. -/
def Api.fromImpactToken (impactToken : String) (jupyterHubToken : Option String)
    (jupyterHubUserPath : Option String) (serverAddress : String) :
    Except ApiError ClientState :=
  Api.construct none (some impactToken) jupyterHubToken serverAddress jupyterHubUserPath

/-- src/api.ts line 160: a jar is bound to the current config. -/
def isConfiguredForNode (s : ClientState) : Bool :=
  s.axiosConfig.jar.isSome

/-- src/api.ts lines 162-163: the Impact-Authorization header is present
(truthy) in the current config. -/
def isConfiguredForImpact (s : ClientState) : Bool :=
  truthy s.axiosConfig.headers.impactAuthorization

/-- src/api.ts lines 167-210, ensureAxiosConfig: in node mode, rebuild
with a fresh cookie jar when no jar is bound or a known impact token is
missing from the headers; in browser mode, rebuild (without a jar) only
when a known impact token is missing from the headers; otherwise leave
the config untouched. -/
def ensureAxiosConfig (mode : RuntimeMode) (s : ClientState) : ClientState :=
  match mode with
  | .node =>
      if !isConfiguredForNode s || (truthy s.impactToken && !isConfiguredForImpact s) then
        { s with
            axiosConfig :=
              { headers := mkHeaders s.jhToken s.impactToken, jar := some s.nextJar }
            nextJar := s.nextJar + 1 }
      else s
  | .browser =>
      if truthy s.impactToken && !isConfiguredForImpact s then
        { s with axiosConfig := { headers := mkHeaders s.jhToken s.impactToken, jar := none } }
      else s

/-- Result of one stateful step: the client state after the step, the
thrown value if the step rejected, and the network calls it issued. -/
structure StepOut where
  state : ClientState
  err : Option Thrown
  calls : List NetCall
deriving Repr

/-- The ApiError raised at src/api.ts lines 221-227 when the gateway
lookup succeeds without a server assignment. -/
def serverNotStartedError : ApiError :=
  { errorCode := .ServerNotStarted
    httpCode := none
    message := "Server not started on JH or missing JH token scope." }

/-- The ApiError raised at src/api.ts lines 230-236 when the gateway
lookup itself fails with an AxiosError. -/
def jhTokenApiError (status : Option Nat) : ApiError :=
  { errorCode := .JhTokenError
    httpCode := status
    message := "Failed to authorize with JupyterHub, invalid token?" }

/-- src/api.ts lines 212-240, ensureJhUserPath: return immediately when a
routing path is already held (truthy); otherwise issue the gateway
lookup GET.  On a successful response whose server field is falsy, throw
ServerNotStarted (thrown inside the try block; the catch re-throws
non-AxiosError values unchanged, so it propagates as is).  On an
AxiosError from the transport, throw JhTokenError carrying the
transport status; any other thrown value is re-thrown unchanged. -/
def ensureJhUserPath (env : Env) (s : ClientState) : StepOut :=
  if truthy s.jhUserPath then { state := s, err := none, calls := [] }
  else
    let url := s.baseUrl ++ "/hub/api/authorizations/token/" ++ s.jhToken
    match env.lookupResult with
    | .error e =>
        { state := s
          err := some
            (match e with
             | .axios ae => .api (jhTokenApiError ae.status)
             | t => t)
          calls := [.lookup url] }
    | .ok server =>
        if truthy server then
          { state := { s with jhUserPath := server }, err := none, calls := [.lookup url] }
        else
          { state := s, err := some (.api serverNotStartedError), calls := [.lookup url] }

/-- The ApiError raised at src/api.ts lines 47-52 when the access-token
cookie is absent from the explicit jar. -/
def missingAccessTokenError : ApiError :=
  { errorCode := .MissingAccessTokenCookie
    httpCode := none
    message := "Access token cookie not found" }

/-- src/api.ts lines 44-54, getValueFromJarCookies: find the cookie with
the given key, throwing MissingAccessTokenCookie when absent. -/
def getValueFromJarCookies (key : String) (cookies : List Cookie) :
    Except ApiError String :=
  match cookies.find? (fun c => c.key == key) with
  | some c => .ok c.value
  | none => .error missingAccessTokenError

/-- JS String.split with a nonempty separator, over character lists:
scan left to right and cut at each non-overlapping occurrence of the
separator.  `acc` holds the characters of the current segment in
reverse.  The Nat argument is recursion fuel: every call site passes the
length of the scanned list, which a scan with a nonempty separator never
exhausts (each step consumes at least one character), and structural
recursion on the fuel keeps the function kernel-reducible. -/
def splitGo (sep : List Char) : Nat → List Char → List Char → List (List Char)
  | _, [], acc => [acc.reverse]
  | 0, s, acc => [acc.reverse ++ s]
  | fuel + 1, c :: rest, acc =>
      if sep.isPrefixOf (c :: rest) ∧ sep ≠ [] then
        acc.reverse :: splitGo sep fuel ((c :: rest).drop sep.length) []
      else
        splitGo sep fuel rest (c :: acc)

/-- The number of separator occurrences cut by `splitGo`, counted by the
same left-to-right scan with the same fuel discipline. -/
def countGo (sep : List Char) : Nat → List Char → Nat
  | _, [] => 0
  | 0, _ => 0
  | fuel + 1, c :: rest =>
      if sep.isPrefixOf (c :: rest) ∧ sep ≠ [] then
        countGo sep fuel ((c :: rest).drop sep.length) + 1
      else
        countGo sep fuel rest

/-- src/api.ts lines 38-42, getCookieValue: prepend "; " to
document.cookie, split on "; key=", and when the split yields exactly two
parts return the last part truncated at the next semicolon; otherwise
return undefined. -/
def getCookieValue (key : String) (documentCookie : String) : Option String :=
  let hay := ("; " ++ documentCookie).toList
  let parts := splitGo ("; " ++ key ++ "=").toList hay.length hay []
  if parts.length == 2 then
    match parts.getLast? with
    | some last => ((splitGo [';'] last.length last []).head?).map String.mk
    | none => none
  else none

/-- The number of occurrences of the cookie key (as the delimiter
"; key=" of the JS split, in the string "; " ++ documentCookie) that
getCookieValue splits on. -/
def keyOccurrences (key : String) (documentCookie : String) : Nat :=
  let hay := ("; " ++ documentCookie).toList
  countGo ("; " ++ key ++ "=").toList hay.length hay

/-- src/api.ts lines 242-267, ensureImpactToken (the full bootstrap):
ensure the axios config, ensure the routing path, and return early when
an impact token is already held.  Otherwise POST the login exchange to
baseUrl + jhUserPath + "impact/api/login" with the secretKey body; on
success read the token back from the explicit jar when one is bound
(throwing MissingAccessTokenCookie when absent) or from ambient document
cookies (tolerating absence), then ensure the axios config again.  A
transport failure of the login POST itself is not caught here and
propagates raw. -/
def ensureImpactToken (env : Env) (s : ClientState) : StepOut :=
  let s1 := ensureAxiosConfig env.mode s
  let r1 := ensureJhUserPath env s1
  match r1.err with
  | some e => { state := r1.state, err := some e, calls := r1.calls }
  | none =>
      let s2 := r1.state
      if truthy s2.impactToken then
        { state := s2, err := none, calls := r1.calls }
      else
        let url := s2.baseUrl ++ jsStr s2.jhUserPath ++ "impact/api/login"
        let calls := r1.calls ++ [.login url s2.impactApiKey]
        match env.loginResult with
        | .error e => { state := s2, err := some e, calls := calls }
        | .ok _ =>
            match s2.axiosConfig.jar with
            | some _ =>
                match getValueFromJarCookies "access_token" env.jarCookies with
                | .error apiErr => { state := s2, err := some (.api apiErr), calls := calls }
                | .ok v =>
                    { state := ensureAxiosConfig env.mode { s2 with impactToken := some v }
                      err := none
                      calls := calls }
            | none =>
                { state :=
                    ensureAxiosConfig env.mode
                      { s2 with impactToken := getCookieValue "access_token" env.documentCookie }
                  err := none
                  calls := calls }

/-- How a domain-operation promise ends: resolved with a payload,
rejected with a thrown value, or never settled (a rejection that no
handler observes). -/
inductive CallResult where
  | resolved (payload : String)
  | rejected (e : Thrown)
  | unsettled
deriving DecidableEq, Repr

/-- Result of a domain operation: how its promise settles, the client
state afterwards, and the network calls issued. -/
structure DomainOut where
  result : CallResult
  state : ClientState
  calls : List NetCall
deriving Repr

/-- src/api.ts lines 269-282, getWorkspaces: await the bootstrap
(rejecting through toApiError on its failure), then GET the workspaces
URL, resolving with the payload or rejecting through toApiError on
transport failure (the inner request has its own catch handler). -/
def getWorkspaces (env : Env) (s : ClientState) : DomainOut :=
  let b := ensureImpactToken env s
  match b.err with
  | some e => { result := .rejected (toApiError e), state := b.state, calls := b.calls }
  | none =>
      let s2 := b.state
      let url := s2.baseUrl ++ jsStr s2.jhUserPath ++ "impact/api/workspaces"
      let calls := b.calls ++ [.domain url s2.axiosConfig.headers]
      match env.domainResult with
      | .ok v => { result := .resolved v, state := s2, calls := calls }
      | .error e => { result := .rejected (toApiError e), state := s2, calls := calls }

/-- src/api.ts lines 378-403, createExperiment: await the bootstrap, then
POST the experiment definition, resolving with the experiment id or
rejecting through toApiError on transport failure (inner catch
present). -/
def createExperiment (env : Env) (s : ClientState) (workspaceId : String) : DomainOut :=
  let b := ensureImpactToken env s
  match b.err with
  | some e => { result := .rejected (toApiError e), state := b.state, calls := b.calls }
  | none =>
      let s2 := b.state
      let url := s2.baseUrl ++ jsStr s2.jhUserPath ++ "impact/api/workspaces/"
        ++ workspaceId ++ "/experiments"
      let calls := b.calls ++ [.domain url s2.axiosConfig.headers]
      match env.domainResult with
      | .ok v => { result := .resolved v, state := s2, calls := calls }
      | .error e => { result := .rejected (toApiError e), state := s2, calls := calls }

/-- src/api.ts lines 584-609, getExperimentTrajectories: await the
bootstrap (its failure is caught by the outer catch and rejected through
toApiError), then POST the trajectories request.  The inner promise
chain at lines 596-606 has a then handler but NO catch handler, and the
inner promise is not returned to the outer chain, so a transport failure
of the POST is dropped: the returned promise never settles. -/
def getExperimentTrajectories (env : Env) (s : ClientState)
    (workspaceId experimentId : String) : DomainOut :=
  let b := ensureImpactToken env s
  match b.err with
  | some e => { result := .rejected (toApiError e), state := b.state, calls := b.calls }
  | none =>
      let s2 := b.state
      let url := s2.baseUrl ++ jsStr s2.jhUserPath ++ "impact/api/workspaces/"
        ++ workspaceId ++ "/experiments/" ++ experimentId ++ "/trajectories"
      let calls := b.calls ++ [.domain url s2.axiosConfig.headers]
      match env.domainResult with
      | .ok v => { result := .resolved v, state := s2, calls := calls }
      | .error _ => { result := .unsettled, state := s2, calls := calls }

/-- src/api.ts lines 663-666, setImpactToken: store the externally
supplied token and force-rebuild the axios config via configureAxios.
The function only touches the client state; no cookie storage is read or
written. -/
def setImpactToken (token : String) (s : ClientState) : ClientState :=
  configureAxios { s with impactToken := some token }

/-- A sequence of n sequential domain calls (each one a getWorkspaces),
threading the client state and concatenating the call traces. -/
def runCalls (env : Env) (s : ClientState) : Nat → ClientState × List NetCall
  | 0 => (s, [])
  | n + 1 =>
      let r := getWorkspaces env s
      let rest := runCalls env r.state n
      (rest.1, r.calls ++ rest.2)

/-- A throwaway client state, used only as the default of Option.getD when
destructuring the Except returned by the factories at concrete inputs
where construction is known to succeed. -/
def emptyClientState : ClientState :=
  { baseUrl := ""
    impactApiKey := none
    impactToken := none
    jhToken := ""
    jhUserPath := none
    axiosConfig := { headers := { authorization := "", impactAuthorization := none }, jar := none }
    nextJar := 0 }

/-! ### Preservation lemmas about the configuration and bootstrap steps -/

theorem ensureAxiosConfig_impactToken (m : RuntimeMode) (s : ClientState) :
    (ensureAxiosConfig m s).impactToken = s.impactToken := by
  cases m <;> simp only [ensureAxiosConfig] <;> split <;> rfl

theorem ensureAxiosConfig_jhUserPath (m : RuntimeMode) (s : ClientState) :
    (ensureAxiosConfig m s).jhUserPath = s.jhUserPath := by
  cases m <;> simp only [ensureAxiosConfig] <;> split <;> rfl

theorem ensureAxiosConfig_jhToken (m : RuntimeMode) (s : ClientState) :
    (ensureAxiosConfig m s).jhToken = s.jhToken := by
  cases m <;> simp only [ensureAxiosConfig] <;> split <;> rfl

theorem ensureAxiosConfig_baseUrl (m : RuntimeMode) (s : ClientState) :
    (ensureAxiosConfig m s).baseUrl = s.baseUrl := by
  cases m <;> simp only [ensureAxiosConfig] <;> split <;> rfl

theorem ensureAxiosConfig_impactApiKey (m : RuntimeMode) (s : ClientState) :
    (ensureAxiosConfig m s).impactApiKey = s.impactApiKey := by
  cases m <;> simp only [ensureAxiosConfig] <;> split <;> rfl

/-- In node mode the ensured config always has a jar bound: either it was
just created, or it was already bound (otherwise the rebuild branch
would have been taken). -/
theorem ensureAxiosConfig_node_jar (s : ClientState) :
    ((ensureAxiosConfig .node s).axiosConfig.jar).isSome = true := by
  simp only [ensureAxiosConfig]
  split
  · rfl
  · rename_i h
    simp only [Bool.or_eq_true, Bool.not_eq_true', Bool.and_eq_true] at h
    push_neg at h
    have h1 : isConfiguredForNode s = true := by
      cases hc : isConfiguredForNode s
      · exact absurd hc h.1
      · rfl
    simpa [isConfiguredForNode] using h1

theorem ensureJhUserPath_state_impactToken (env : Env) (s : ClientState) :
    (ensureJhUserPath env s).state.impactToken = s.impactToken := by
  simp only [ensureJhUserPath]
  split
  · rfl
  · cases env.lookupResult with
    | error e => rfl
    | ok server => dsimp only; split <;> rfl

theorem ensureJhUserPath_state_axiosConfig (env : Env) (s : ClientState) :
    (ensureJhUserPath env s).state.axiosConfig = s.axiosConfig := by
  simp only [ensureJhUserPath]
  split
  · rfl
  · cases env.lookupResult with
    | error e => rfl
    | ok server => dsimp only; split <;> rfl

theorem ensureJhUserPath_state_baseUrl (env : Env) (s : ClientState) :
    (ensureJhUserPath env s).state.baseUrl = s.baseUrl := by
  simp only [ensureJhUserPath]
  split
  · rfl
  · cases env.lookupResult with
    | error e => rfl
    | ok server => dsimp only; split <;> rfl

theorem ensureJhUserPath_state_impactApiKey (env : Env) (s : ClientState) :
    (ensureJhUserPath env s).state.impactApiKey = s.impactApiKey := by
  simp only [ensureJhUserPath]
  split
  · rfl
  · cases env.lookupResult with
    | error e => rfl
    | ok server => dsimp only; split <;> rfl

/-- A held routing path short-circuits the lookup entirely. -/
theorem ensureJhUserPath_skip (env : Env) (s : ClientState)
    (h : truthy s.jhUserPath = true) :
    ensureJhUserPath env s = { state := s, err := none, calls := [] } := by
  simp [ensureJhUserPath, h]

/-- Every call issued by the path-resolution step is a gateway lookup. -/
theorem ensureJhUserPath_calls_lookup (env : Env) (s : ClientState) :
    (ensureJhUserPath env s).calls.all NetCall.isLookup = true := by
  simp only [ensureJhUserPath]
  split
  · rfl
  · cases env.lookupResult with
    | error e => simp [NetCall.isLookup]
    | ok server =>
        dsimp only; split <;> simp [NetCall.isLookup]

/-- When path resolution succeeds, the resulting state holds a truthy
routing path. -/
theorem ensureJhUserPath_ok_truthy (env : Env) (s : ClientState)
    (h : (ensureJhUserPath env s).err = none) :
    truthy (ensureJhUserPath env s).state.jhUserPath = true := by
  by_cases hp : truthy s.jhUserPath = true
  · simp [ensureJhUserPath_skip env s hp, hp]
  · simp only [ensureJhUserPath, hp, if_false] at h ⊢
    cases hr : env.lookupResult with
    | error e => simp [hr] at h
    | ok server =>
        simp only [hr] at h ⊢
        by_cases hs : truthy server = true
        · simp [hs]
        · simp [hs] at h

/-- A lookup call is never a login call. -/
theorem lookup_not_login (c : NetCall) (h : NetCall.isLookup c = true) :
    NetCall.isLogin c = false := by
  cases c <;> simp_all [NetCall.isLookup, NetCall.isLogin]

/-- A lookup call is never a domain call. -/
theorem lookup_not_domain (c : NetCall) (h : NetCall.isLookup c = true) :
    NetCall.isDomain c = false := by
  cases c <;> simp_all [NetCall.isLookup, NetCall.isDomain]

/-- With an impact token already held, the bootstrap is exactly the
config-ensure plus path-ensure steps: no login exchange happens. -/
theorem ensureImpactToken_token_held (env : Env) (s : ClientState)
    (h : truthy s.impactToken = true) :
    ensureImpactToken env s = ensureJhUserPath env (ensureAxiosConfig env.mode s) := by
  have ht : truthy (ensureJhUserPath env (ensureAxiosConfig env.mode s)).state.impactToken
      = true := by
    rw [ensureJhUserPath_state_impactToken, ensureAxiosConfig_impactToken]; exact h
  simp only [ensureImpactToken]
  rcases hr : ensureJhUserPath env (ensureAxiosConfig env.mode s) with ⟨st, er, cs⟩
  rw [hr] at ht
  simp only at ht
  cases er with
  | some e => rfl
  | none => simp [ht]

/-- With an impact token already held, the bootstrap issues no login call
and the token survives. -/
theorem ensureImpactToken_token_held_props (env : Env) (s : ClientState)
    (h : truthy s.impactToken = true) :
    (ensureImpactToken env s).calls.all (fun c => !(NetCall.isLogin c)) = true ∧
    truthy (ensureImpactToken env s).state.impactToken = true := by
  rw [ensureImpactToken_token_held env s h]
  refine ⟨?_, ?_⟩
  · have hl := ensureJhUserPath_calls_lookup env (ensureAxiosConfig env.mode s)
    simp only [List.all_eq_true] at hl ⊢
    intro c hc
    have := lookup_not_login c (hl c hc)
    simp [this]
  · rw [ensureJhUserPath_state_impactToken, ensureAxiosConfig_impactToken]; exact h

/-- With a routing path already held, the bootstrap issues no lookup call
and the path survives. -/
theorem ensureImpactToken_path_held_props (env : Env) (s : ClientState)
    (h : truthy s.jhUserPath = true) :
    (ensureImpactToken env s).calls.all (fun c => !(NetCall.isLookup c)) = true ∧
    truthy (ensureImpactToken env s).state.jhUserPath = true := by
  have h1 : truthy (ensureAxiosConfig env.mode s).jhUserPath = true := by
    rw [ensureAxiosConfig_jhUserPath]; exact h
  simp only [ensureImpactToken, ensureJhUserPath_skip env _ h1]
  split
  · exact ⟨rfl, h1⟩
  · cases env.loginResult with
    | error e => simp [NetCall.isLookup, h1]
    | ok u =>
        dsimp only
        cases (ensureAxiosConfig env.mode s).axiosConfig.jar with
        | some j =>
            cases getValueFromJarCookies "access_token" env.jarCookies with
            | error apiErr => simp [NetCall.isLookup, h1]
            | ok v =>
                refine ⟨by simp [NetCall.isLookup], ?_⟩
                rw [ensureAxiosConfig_jhUserPath]
                exact h1
        | none =>
            refine ⟨by simp [NetCall.isLookup], ?_⟩
            rw [ensureAxiosConfig_jhUserPath]
            exact h1

/-- A domain call on a client that already holds a routing path issues no
gateway lookup and leaves the path held. -/
theorem getWorkspaces_path_held (env : Env) (s : ClientState)
    (h : truthy s.jhUserPath = true) :
    (getWorkspaces env s).calls.all (fun c => !(NetCall.isLookup c)) = true ∧
    truthy (getWorkspaces env s).state.jhUserPath = true := by
  have hb := ensureImpactToken_path_held_props env s h
  simp only [getWorkspaces]
  rcases hr : ensureImpactToken env s with ⟨st, er, cs⟩
  rw [hr] at hb
  simp only at hb
  cases er with
  | some e => exact hb
  | none =>
      cases env.domainResult with
      | ok v =>
          simp only [List.all_append, Bool.and_eq_true]
          exact ⟨⟨hb.1, by simp [NetCall.isLookup]⟩, hb.2⟩
      | error e =>
          simp only [List.all_append, Bool.and_eq_true]
          exact ⟨⟨hb.1, by simp [NetCall.isLookup]⟩, hb.2⟩

/-- A domain call on a client that already holds an impact token issues
no login exchange and leaves the token held. -/
theorem getWorkspaces_token_held (env : Env) (s : ClientState)
    (h : truthy s.impactToken = true) :
    (getWorkspaces env s).calls.all (fun c => !(NetCall.isLogin c)) = true ∧
    truthy (getWorkspaces env s).state.impactToken = true := by
  have hb := ensureImpactToken_token_held_props env s h
  simp only [getWorkspaces]
  rcases hr : ensureImpactToken env s with ⟨st, er, cs⟩
  rw [hr] at hb
  simp only at hb
  cases er with
  | some e => exact hb
  | none =>
      cases env.domainResult with
      | ok v =>
          simp only [List.all_append, Bool.and_eq_true]
          exact ⟨⟨hb.1, by simp [NetCall.isLogin]⟩, hb.2⟩
      | error e =>
          simp only [List.all_append, Bool.and_eq_true]
          exact ⟨⟨hb.1, by simp [NetCall.isLogin]⟩, hb.2⟩

/-- After force-rebuilding with an externally supplied nonempty token,
the next ensured config carries the service-auth header for that token,
in both runtime modes. -/
theorem ensureAxiosConfig_after_setImpactToken (m : RuntimeMode) (s : ClientState)
    (tok : String) (h : tok ≠ "") :
    (ensureAxiosConfig m (setImpactToken tok s)).axiosConfig.headers.impactAuthorization
      = some ("Bearer " ++ tok) := by
  cases m <;>
    simp [ensureAxiosConfig, setImpactToken, configureAxios, mkHeaders,
      isConfiguredForNode, isConfiguredForImpact, truthy, jsStr, h]

/-- C6: across any number of sequential domain calls, a client that
already holds a routing path never issues a gateway lookup, and a client
that already holds an impact token never issues a login exchange: the
held values are guarded by the early returns of ensureJhUserPath and
ensureImpactToken and survive every call. -/
theorem claim_C6_no_reresolution (env : Env) (s : ClientState) (n : Nat) :
    (truthy s.jhUserPath = true →
      (runCalls env s n).2.all (fun c => !(NetCall.isLookup c)) = true) ∧
    (truthy s.impactToken = true →
      (runCalls env s n).2.all (fun c => !(NetCall.isLogin c)) = true) := by
  induction n generalizing s with
  | zero => exact ⟨fun _ => rfl, fun _ => rfl⟩
  | succ n ih =>
      constructor
      · intro h
        simp only [runCalls, List.all_append, Bool.and_eq_true]
        have h1 := getWorkspaces_path_held env s h
        exact ⟨h1.1, (ih (getWorkspaces env s).state).1 h1.2⟩
      · intro h
        simp only [runCalls, List.all_append, Bool.and_eq_true]
        have h1 := getWorkspaces_token_held env s h
        exact ⟨h1.1, (ih (getWorkspaces env s).state).2 h1.2⟩

def c6Env : Env :=
  { mode := .node
    lookupResult := .ok none
    loginResult := .ok ()
    jarCookies := []
    documentCookie := ""
    domainResult := .ok "items" }

def c6Client : ClientState :=
  (Api.fromImpactToken "tok" (some "jh") (some "/user/u/") "https://host").toOption.getD
    emptyClientState

/-- Witness for C6 at a concrete client holding both a routing path and a
token, across three sequential domain calls. -/
theorem claim_C6_witness :
    truthy c6Client.jhUserPath = true ∧ truthy c6Client.impactToken = true ∧
    (runCalls c6Env c6Client 3).2.all (fun c => !(NetCall.isLookup c)) = true ∧
    (runCalls c6Env c6Client 3).2.all (fun c => !(NetCall.isLogin c)) = true :=
  ⟨rfl, rfl, (claim_C6_no_reresolution c6Env c6Client 3).1 rfl,
    (claim_C6_no_reresolution c6Env c6Client 3).2 rfl⟩

/-- C8: after setImpactToken with the token newtok, the next domain call
issues no login exchange, and every domain request it issues is sent
from a transport configuration whose Impact-Authorization (service-auth)
header is Bearer newtok. -/
theorem claim_C8_external_token (env : Env) (s : ClientState) :
    (getWorkspaces env (setImpactToken "newtok" s)).calls.all
      (fun c => !(NetCall.isLogin c)) = true ∧
    (getWorkspaces env (setImpactToken "newtok" s)).calls.all
      (fun c =>
        match c with
        | .domain _ hd => hd.impactAuthorization == some "Bearer newtok"
        | _ => true) = true := by
  have htok : truthy (setImpactToken "newtok" s).impactToken = true := rfl
  refine ⟨(getWorkspaces_token_held env (setImpactToken "newtok" s) htok).1, ?_⟩
  have hhdr := ensureAxiosConfig_after_setImpactToken env.mode s "newtok" (by decide)
  have heq := ensureImpactToken_token_held env (setImpactToken "newtok" s) htok
  simp only [getWorkspaces]
  rcases hr : ensureImpactToken env (setImpactToken "newtok" s) with ⟨st, er, cs⟩
  rw [heq] at hr
  have hlk := ensureJhUserPath_calls_lookup env
    (ensureAxiosConfig env.mode (setImpactToken "newtok" s))
  rw [hr] at hlk
  have hcfg := ensureJhUserPath_state_axiosConfig env
    (ensureAxiosConfig env.mode (setImpactToken "newtok" s))
  rw [hr] at hcfg
  simp only at hlk hcfg
  have hlkmatch : cs.all
      (fun c =>
        match c with
        | .domain _ hd => hd.impactAuthorization == some "Bearer newtok"
        | _ => true) = true := by
    simp only [List.all_eq_true] at hlk ⊢
    intro c hc
    have := hlk c hc
    cases c <;> simp_all [NetCall.isLookup]
  cases er with
  | some e => exact hlkmatch
  | none =>
      cases env.domainResult with
      | ok v =>
          simp only [List.all_append, Bool.and_eq_true]
          refine ⟨hlkmatch, ?_⟩
          simp only [List.all_cons, List.all_nil, Bool.and_true]
          rw [hcfg, hhdr]
          rfl
      | error e =>
          simp only [List.all_append, Bool.and_eq_true]
          refine ⟨hlkmatch, ?_⟩
          simp only [List.all_cons, List.all_nil, Bool.and_true]
          rw [hcfg, hhdr]
          rfl

def transportFailure500 : Thrown :=
  .axios { status := some 500, bodyErrorCode := none, bodyErrorMessage := none }

def c1Env : Env :=
  { mode := .browser
    lookupResult := .ok none
    loginResult := .ok ()
    jarCookies := []
    documentCookie := ""
    domainResult := .error transportFailure500 }

def c1Client : ClientState :=
  (Api.fromImpactToken "tok123" (some "jhtok") (some "/user/alice/") "https://host").toOption.getD
    emptyClientState

/-- C1: the claim states that every domain operation settles (rejects
through the error classifier) when its HTTP request fails at the
transport level.  getExperimentTrajectories violates this: its inner
promise chain has no catch handler (src/api.ts lines 596-606), so on a
transport failure of the trajectories POST the returned promise never
settles, while getWorkspaces and createExperiment do reject with the
classified UnknownApiError carrying the transport status. -/
theorem claim_C1_trajectories_failure_dropped :
    (getExperimentTrajectories c1Env c1Client "ws" "exp").result = .unsettled ∧
    (getExperimentTrajectories c1Env c1Client "ws" "exp").calls.any NetCall.isDomain = true ∧
    (getWorkspaces c1Env c1Client).result =
      .rejected (.api { errorCode := .UnknownApiError, httpCode := some 500, message := "Api Error" }) ∧
    (createExperiment c1Env c1Client "ws").result =
      .rejected (.api { errorCode := .UnknownApiError, httpCode := some 500, message := "Api Error" }) :=
  ⟨rfl, rfl, rfl, rfl⟩

/-- C9: constructing a client through either factory with a falsy gateway
credential (absent or empty jupyterHubToken) fails synchronously with
MissingJupyterHubToken; construction issues no network call (its result
carries no call trace by type). -/
theorem claim_C9_missing_gateway_credential (impactApiKey impactToken : String)
    (jupyterHubToken jupyterHubUserPath : Option String) (serverAddress : String)
    (h : truthy jupyterHubToken = false) :
    Api.fromImpactApiKey impactApiKey jupyterHubToken jupyterHubUserPath serverAddress
      = .error missingJupyterHubTokenError ∧
    Api.fromImpactToken impactToken jupyterHubToken jupyterHubUserPath serverAddress
      = .error missingJupyterHubTokenError := by
  constructor <;>
    simp [Api.fromImpactApiKey, Api.fromImpactToken, Api.construct, h]

/-- Witness for C9: an absent credential and an empty credential both
fail at concrete construction arguments. -/
theorem claim_C9_witness :
    truthy (none : Option String) = false ∧ truthy (some "") = false ∧
    Api.fromImpactApiKey "sk_abc" none none "https://host"
      = .error missingJupyterHubTokenError ∧
    Api.fromImpactToken "tok" (some "") none "https://host"
      = .error missingJupyterHubTokenError :=
  ⟨rfl, rfl,
    (claim_C9_missing_gateway_credential "sk_abc" "tok" none none "https://host" rfl).1,
    (claim_C9_missing_gateway_credential "sk_abc" "tok" (some "") none "https://host" rfl).2⟩

def c7Env : Env :=
  { mode := .node
    lookupResult := .ok none
    loginResult := .ok ()
    jarCookies := []
    documentCookie := ""
    domainResult := .ok "" }

def c7Client : ClientState :=
  (Api.fromImpactToken "tok" (some "jh") (some "/user/u/") "https://host").toOption.getD
    emptyClientState

/-- A node-mode client state after one bootstrap: its transport config
has a cookie jar bound. -/
def c7BootState : ClientState := (ensureImpactToken c7Env c7Client).state

/-- C7 counterexample: on a node-mode client whose transport config holds
a bound cookie jar, the force-rebuild performed by setImpactToken
produces a config with no jar at all, so the cookie-store binding is NOT
the same before and after. -/
theorem claim_C7_counterexample :
    c7BootState.axiosConfig.jar = some 0 ∧
    (setImpactToken "newtok" c7BootState).axiosConfig.jar = none ∧
    (setImpactToken "newtok" c7BootState).axiosConfig.jar ≠ c7BootState.axiosConfig.jar :=
  ⟨rfl, rfl, by decide⟩

/-- C7 amended: the force-rebuild triggered by setImpactToken rebuilds
the config with the gateway-auth header and, for a nonempty token, the
service-auth header; it reads or writes no cookie store, but the rebuilt
config carries no cookie-jar binding: any previously bound jar is
dropped (a later rebuild-if-stale binds a fresh one in explicit-jar
mode). -/
theorem claim_C7_amended (s : ClientState) (token : String) :
    (setImpactToken token s).axiosConfig.headers.authorization = "token " ++ s.jhToken ∧
    (token ≠ "" →
      (setImpactToken token s).axiosConfig.headers.impactAuthorization
        = some ("Bearer " ++ token)) ∧
    (setImpactToken token s).axiosConfig.jar = none := by
  refine ⟨rfl, ?_, rfl⟩
  intro h
  simp [setImpactToken, configureAxios, mkHeaders, truthy, jsStr, h]

/-- Witness for C7 amended at a concrete jar-bound state and token. -/
theorem claim_C7_witness :
    ("newtok" ≠ "") ∧
    (setImpactToken "newtok" c7BootState).axiosConfig.headers.impactAuthorization
      = some ("Bearer " ++ "newtok") :=
  ⟨by decide, (claim_C7_amended c7BootState "newtok").2.1 (by decide)⟩

def c2Client : ClientState :=
  (Api.fromImpactApiKey "sk_abc" (some "tok123") (some "/user/alice/") "https://host").toOption.getD
    emptyClientState

/-- The scenario client of C2 in explicit form: base address, api key,
gateway credential and pre-supplied routing path, with no impact token
and the initial config built by the constructor. -/
theorem c2Client_eq :
    c2Client =
      { baseUrl := "https://host"
        impactApiKey := some "sk_abc"
        impactToken := none
        jhToken := "tok123"
        jhUserPath := some "/user/alice/"
        axiosConfig :=
          { headers := { authorization := "token tok123", impactAuthorization := none }
            jar := none }
        nextJar := 0 } := by rfl

def c2Env : Env :=
  { mode := .browser
    lookupResult := .ok none
    loginResult := .ok ()
    jarCookies := []
    documentCookie := ""
    domainResult := .ok "items" }

/-- C2 counterexample: the single login-exchange POST of the scenario
goes to https://host/user/alice/impact/api/login (the path segment is
impact/api, built at src/api.ts line 251), not to
https://host/user/alice/service/api/login as the claim states. -/
theorem claim_C2_counterexample :
    (getWorkspaces c2Env c2Client).calls.filter NetCall.isLogin
      = [.login "https://host/user/alice/impact/api/login" (some "sk_abc")] ∧
    (getWorkspaces c2Env c2Client).calls.filter NetCall.isLogin
      ≠ [.login "https://host/user/alice/service/api/login" (some "sk_abc")] :=
  ⟨rfl, by decide⟩

/-- C2 amended: for the scenario client (gateway credential tok123, base
https://host, pre-supplied routing path /user/alice/, application secret
sk_abc), the first domain call issues exactly one login-exchange POST,
to https://host/user/alice/impact/api/login with secretKey sk_abc in the
body, and no gateway-lookup call is ever issued — whatever the runtime
mode and transport outcomes. -/
theorem claim_C2_amended (env : Env) :
    (getWorkspaces env c2Client).calls.filter NetCall.isLogin
      = [.login "https://host/user/alice/impact/api/login" (some "sk_abc")] ∧
    (getWorkspaces env c2Client).calls.filter NetCall.isLookup = [] := by
  rcases env with ⟨mode, lookupResult, loginResult, jarCookies, documentCookie, domainResult⟩
  cases mode
  case node =>
    cases hfind : jarCookies.find? (fun c => c.key == "access_token") with
    | none =>
        cases loginResult <;> cases domainResult <;>
          simp [getWorkspaces, ensureImpactToken, ensureJhUserPath, ensureAxiosConfig,
            c2Client_eq, isConfiguredForNode, isConfiguredForImpact, truthy, jsStr,
            NetCall.isLogin, NetCall.isLookup, getValueFromJarCookies, hfind]
    | some c =>
        cases loginResult <;> cases domainResult <;>
          simp [getWorkspaces, ensureImpactToken, ensureJhUserPath, ensureAxiosConfig,
            c2Client_eq, isConfiguredForNode, isConfiguredForImpact, truthy, jsStr,
            NetCall.isLogin, NetCall.isLookup, getValueFromJarCookies, hfind, mkHeaders]
  case browser =>
    cases loginResult <;> cases domainResult <;>
      simp [getWorkspaces, ensureImpactToken, ensureJhUserPath, ensureAxiosConfig,
        c2Client_eq, isConfiguredForNode, isConfiguredForImpact, truthy, jsStr,
        NetCall.isLogin, NetCall.isLookup, getCookieValue, mkHeaders]

/-- C3: on a client with no routing path held, a gateway lookup whose
response has a falsy server field makes the bootstrap reject with
ServerNotStarted and no login-exchange call is attempted; a lookup that
fails at the transport level with an AxiosError makes the bootstrap
reject with JhTokenError carrying that transport status, again with no
login-exchange call. -/
theorem claim_C3_lookup_failures (env : Env) (s : ClientState)
    (hpath : truthy s.jhUserPath = false) :
    (∀ server, env.lookupResult = .ok server → truthy server = false →
      (ensureImpactToken env s).err = some (.api serverNotStartedError) ∧
      (ensureImpactToken env s).calls.all (fun c => !(NetCall.isLogin c)) = true) ∧
    (∀ ae, env.lookupResult = .error (.axios ae) →
      (ensureImpactToken env s).err = some (.api (jhTokenApiError ae.status)) ∧
      (ensureImpactToken env s).calls.all (fun c => !(NetCall.isLogin c)) = true) := by
  have h1 : truthy (ensureAxiosConfig env.mode s).jhUserPath = false := by
    rw [ensureAxiosConfig_jhUserPath]; exact hpath
  constructor
  · intro server hres hserver
    have hr1 : ensureJhUserPath env (ensureAxiosConfig env.mode s)
        = { state := ensureAxiosConfig env.mode s
            err := some (.api serverNotStartedError)
            calls := [.lookup ((ensureAxiosConfig env.mode s).baseUrl
              ++ "/hub/api/authorizations/token/" ++ (ensureAxiosConfig env.mode s).jhToken)] } := by
      simp [ensureJhUserPath, h1, hres, hserver]
    constructor <;> simp [ensureImpactToken, hr1, NetCall.isLogin]
  · intro ae hres
    have hr1 : ensureJhUserPath env (ensureAxiosConfig env.mode s)
        = { state := ensureAxiosConfig env.mode s
            err := some (.api (jhTokenApiError ae.status))
            calls := [.lookup ((ensureAxiosConfig env.mode s).baseUrl
              ++ "/hub/api/authorizations/token/" ++ (ensureAxiosConfig env.mode s).jhToken)] } := by
      simp [ensureJhUserPath, h1, hres]
    constructor <;> simp [ensureImpactToken, hr1, NetCall.isLogin]

def c3Env : Env :=
  { mode := .browser
    lookupResult := .error (.axios { status := some 401, bodyErrorCode := none, bodyErrorMessage := none })
    loginResult := .ok ()
    jarCookies := []
    documentCookie := ""
    domainResult := .ok "" }

def c3Client : ClientState :=
  (Api.fromImpactApiKey "sk" (some "jh") none "https://host").toOption.getD emptyClientState

/-- Witness for C3 at a concrete client with no routing path and a
gateway lookup failing with HTTP 401. -/
theorem claim_C3_witness :
    truthy c3Client.jhUserPath = false ∧
    (ensureImpactToken c3Env c3Client).err
      = some (.api (jhTokenApiError (some 401))) :=
  ⟨rfl, ((claim_C3_lookup_failures c3Env c3Client rfl).2
      { status := some 401, bodyErrorCode := none, bodyErrorMessage := none } rfl).1⟩

/-- C4: in node (explicit-jar) mode, on a domain call whose bootstrap
reaches the login exchange (path resolution succeeds, no token held yet)
and whose login POST succeeds, a jar holding no access_token cookie
makes the call reject with MissingAccessTokenCookie and the domain
request itself is never issued. -/
theorem claim_C4_missing_jar_cookie (env : Env) (s : ClientState)
    (hmode : env.mode = .node)
    (htok : truthy s.impactToken = false)
    (hpath : (ensureJhUserPath env (ensureAxiosConfig env.mode s)).err = none)
    (hlogin : env.loginResult = .ok ())
    (hcookie : env.jarCookies.all (fun c => !(c.key == "access_token")) = true) :
    (getWorkspaces env s).result = .rejected (.api missingAccessTokenError) ∧
    (getWorkspaces env s).calls.all (fun c => !(NetCall.isDomain c)) = true := by
  have hfind : env.jarCookies.find? (fun c => c.key == "access_token") = none := by
    rw [List.find?_eq_none]
    intro c hc
    simp only [List.all_eq_true] at hcookie
    simpa using hcookie c hc
  rcases hr1 : ensureJhUserPath env (ensureAxiosConfig env.mode s) with ⟨st, er, cs⟩
  have her : er = none := by rw [hr1] at hpath; simpa using hpath
  subst her
  have hst_tok : truthy st.impactToken = false := by
    have h1 := ensureJhUserPath_state_impactToken env (ensureAxiosConfig env.mode s)
    rw [hr1] at h1
    simp only at h1
    rw [h1, ensureAxiosConfig_impactToken]
    exact htok
  have hst_jar : st.axiosConfig.jar.isSome = true := by
    have h1 := ensureJhUserPath_state_axiosConfig env (ensureAxiosConfig env.mode s)
    rw [hr1] at h1
    simp only at h1
    rw [h1, hmode]
    exact ensureAxiosConfig_node_jar s
  rcases hjar : st.axiosConfig.jar with _ | j
  · rw [hjar] at hst_jar; simp at hst_jar
  · have hboot : ensureImpactToken env s =
        { state := st
          err := some (.api missingAccessTokenError)
          calls := cs ++ [.login (st.baseUrl ++ jsStr st.jhUserPath ++ "impact/api/login")
            st.impactApiKey] } := by
      simp only [ensureImpactToken, hr1]
      simp [hst_tok, hlogin, hjar, getValueFromJarCookies, hfind]
    have hcs_lookup : cs.all NetCall.isLookup = true := by
      have h1 := ensureJhUserPath_calls_lookup env (ensureAxiosConfig env.mode s)
      rw [hr1] at h1
      simpa using h1
    constructor
    · simp [getWorkspaces, hboot, toApiError]
    · simp only [getWorkspaces, hboot]
      simp only [List.all_append, Bool.and_eq_true]
      constructor
      · simp only [List.all_eq_true] at hcs_lookup ⊢
        intro c hc
        have := hcs_lookup c hc
        cases c <;> simp_all [NetCall.isLookup, NetCall.isDomain]
      · simp [NetCall.isDomain]

def c4Env : Env :=
  { mode := .node
    lookupResult := .ok (some "/user/bob/")
    loginResult := .ok ()
    jarCookies := [{ key := "other", value := "v" }]
    documentCookie := ""
    domainResult := .ok "" }

def c4Client : ClientState :=
  (Api.fromImpactApiKey "sk_abc" (some "jh") none "https://host").toOption.getD emptyClientState

/-- Witness for C4 at a concrete node-mode client whose jar lacks the
access_token cookie after a successful login exchange. -/
theorem claim_C4_witness :
    (getWorkspaces c4Env c4Client).result = .rejected (.api missingAccessTokenError) ∧
    (getWorkspaces c4Env c4Client).calls.all (fun c => !(NetCall.isDomain c)) = true :=
  claim_C4_missing_jar_cookie c4Env c4Client rfl rfl rfl rfl rfl

/-- C5: in browser (ambient-cookie) mode, on a client with no token, no
service-auth header and no jar bound, a bootstrap whose path resolution
and login POST succeed but whose document cookies contain no
access_token entry does not reject: the stored token stays undefined and
the resulting transport configuration still carries no
Impact-Authorization header. -/
theorem claim_C5_ambient_missing_cookie (env : Env) (s : ClientState)
    (hmode : env.mode = .browser)
    (htok : truthy s.impactToken = false)
    (hhdr : s.axiosConfig.headers.impactAuthorization = none)
    (hjar : s.axiosConfig.jar = none)
    (hpath : (ensureJhUserPath env (ensureAxiosConfig env.mode s)).err = none)
    (hlogin : env.loginResult = .ok ())
    (hcookie : getCookieValue "access_token" env.documentCookie = none) :
    (ensureImpactToken env s).err = none ∧
    (ensureImpactToken env s).state.impactToken = none ∧
    (ensureImpactToken env s).state.axiosConfig.headers.impactAuthorization = none := by
  have hs1 : ensureAxiosConfig env.mode s = s := by
    rw [hmode]; simp [ensureAxiosConfig, htok]
  rw [hs1] at hpath
  rcases hr1 : ensureJhUserPath env s with ⟨st, er, cs⟩
  have her : er = none := by rw [hr1] at hpath; simpa using hpath
  subst her
  have hst_tok : truthy st.impactToken = false := by
    have h1 := ensureJhUserPath_state_impactToken env s
    rw [hr1] at h1
    simp only at h1
    rw [h1]; exact htok
  have hst_cfg : st.axiosConfig = s.axiosConfig := by
    have h1 := ensureJhUserPath_state_axiosConfig env s
    rw [hr1] at h1
    simpa using h1
  have hst_jar : st.axiosConfig.jar = none := by rw [hst_cfg]; exact hjar
  have hboot : ensureImpactToken env s =
      { state := ensureAxiosConfig env.mode
          { st with impactToken := getCookieValue "access_token" env.documentCookie }
        err := none
        calls := cs ++ [.login (st.baseUrl ++ jsStr st.jhUserPath ++ "impact/api/login")
          st.impactApiKey] } := by
    simp only [ensureImpactToken, hs1, hr1]
    simp [hst_tok, hlogin, hst_jar]
  have hfinal : ensureAxiosConfig env.mode
      { st with impactToken := getCookieValue "access_token" env.documentCookie }
      = { st with impactToken := none } := by
    rw [hmode, hcookie]
    simp [ensureAxiosConfig, truthy]
  rw [hboot, hfinal]
  refine ⟨rfl, rfl, ?_⟩
  rw [hst_cfg]
  exact hhdr

def c5Env : Env :=
  { mode := .browser
    lookupResult := .ok (some "/user/eve/")
    loginResult := .ok ()
    jarCookies := []
    documentCookie := "theme=dark"
    domainResult := .ok "" }

def c5Client : ClientState :=
  (Api.fromImpactApiKey "sk" (some "jh") none "https://host").toOption.getD emptyClientState

/-- Witness for C5 at a concrete browser-mode client whose document
cookies lack the access_token entry after a successful login
exchange. -/
theorem claim_C5_witness :
    (ensureImpactToken c5Env c5Client).err = none ∧
    (ensureImpactToken c5Env c5Client).state.impactToken = none ∧
    (ensureImpactToken c5Env c5Client).state.axiosConfig.headers.impactAuthorization = none :=
  claim_C5_ambient_missing_cookie c5Env c5Client rfl rfl rfl rfl rfl rfl rfl

/-- The split always yields one more part than the number of separator
occurrences it cut. -/
theorem splitGo_length (sep : List Char) :
    ∀ (fuel : Nat) (s acc : List Char),
      (splitGo sep fuel s acc).length = countGo sep fuel s + 1 := by
  intro fuel
  induction fuel with
  | zero => intro s acc; cases s <;> simp [splitGo, countGo]
  | succ n ih =>
      intro s acc
      cases s with
      | nil => simp [splitGo, countGo]
      | cons c rest =>
          by_cases h : sep <+: c :: rest ∧ sep ≠ []
          · simp [splitGo, countGo, h, ih]
          · simp [splitGo, countGo, h, ih]

/-- The split never yields an empty list of parts. -/
theorem splitGo_ne_nil (sep : List Char) (fuel : Nat) (s acc : List Char) :
    splitGo sep fuel s acc ≠ [] := by
  intro hcon
  have := splitGo_length sep fuel s acc
  rw [hcon] at this
  simp at this

/-- The body of getCookieValue yields a value exactly when the scan cut
exactly one separator occurrence. -/
theorem cookieSplit_isSome (sep hay : List Char) :
    (if (splitGo sep hay.length hay []).length == 2 then
        match (splitGo sep hay.length hay []).getLast? with
        | some last => ((splitGo [';'] last.length last []).head?).map String.mk
        | none => none
      else none).isSome = (countGo sep hay.length hay == 1) := by
  have hlen := splitGo_length sep hay.length hay []
  by_cases hc : countGo sep hay.length hay = 1
  · have hlen2 : (splitGo sep hay.length hay []).length = 2 := by omega
    rcases List.length_eq_two.mp hlen2 with ⟨a, b, hab⟩
    rw [hab]
    cases hsp : splitGo [';'] b.length b [] with
    | nil => exact absurd hsp (splitGo_ne_nil [';'] b.length b [])
    | cons x xs => simp [hsp, hc]
  · have hne2 : ((splitGo sep hay.length hay []).length == 2) = false := by
      simp only [beq_eq_false_iff_ne, ne_eq]
      omega
    simp [hne2, hc]

/-- C10: the document-cookie extraction returns a token value exactly
when the cookie key occurs exactly once — occurrence meaning an
occurrence of the JS split delimiter "; access_token=" in the string
"; " ++ document.cookie, which is how the code counts the key; zero
occurrences and two or more occurrences both yield undefined, and at a
single occurrence the extracted value is the text up to the next
semicolon. -/
theorem claim_C10_single_key_occurrence (doc : String) :
    ((getCookieValue "access_token" doc).isSome = true ↔
      keyOccurrences "access_token" doc = 1) ∧
    getCookieValue "access_token" "a=b; access_token=tok; c=d" = some "tok" ∧
    getCookieValue "access_token" "a=b; c=d" = none ∧
    getCookieValue "access_token" "access_token=x; access_token=y" = none := by
  refine ⟨?_, rfl, rfl, rfl⟩
  have h := cookieSplit_isSome ("; " ++ "access_token" ++ "=").toList ("; " ++ doc).toList
  simp only [getCookieValue, keyOccurrences]
  rw [h]
  simp
